import Mathlib

/-!
Verification of the single-route Flask application in
`src/Backend/source/main/app.py`:

```python
from flask import Flask
from source.main.config import create_app

flask_app = create_app()


@flask_app.route("/")
def home_route():
    return "Hello World !"
```

The handler body is embedded as a tiny Python statement language with an
explicit evaluator over a global-variable store, so that "raises no error"
and "mutates no state" are facts about an execution, not assumptions.
Flask's dispatch of requests to the registered rule is embedded following
the framework's documented semantics: `route("/")` with no `methods`
argument registers the rule for GET, Werkzeug adds HEAD automatically
because GET is present, and Flask adds an automatic OPTIONS responder that
answers OPTIONS requests itself without invoking the view function.
-/

namespace Postalgic

/-- HTTP methods relevant to dispatch. -/
inductive Method where
  | GET
  | POST
  | HEAD
  | OPTIONS
  | PUT
  | DELETE
  | PATCH
deriving DecidableEq, Repr

/-- An incoming HTTP request, as seen by the routing layer and (were the
handler to read it) the handler. -/
structure Request where
  method : Method
  path : String
  query : List (String × String)
  headers : List (String × String)
  body : String
deriving DecidableEq, Repr

/-- An HTTP response produced by invoking a view function. -/
structure Response where
  status : Nat
  body : String
deriving DecidableEq, Repr

/-- Python runtime values that can appear in this program: strings and
`None`. -/
inductive Value where
  | str (s : String)
  | pyNone
deriving DecidableEq, Repr

/-- Expressions of the embedded Python fragment: string literals and reads
of module-level globals. -/
inductive PyExpr where
  | strLit (s : String)
  | readGlobal (name : String)
deriving DecidableEq, Repr

/-- Statements of the embedded Python fragment: `return`, `raise`, and
assignment to a module-level global. -/
inductive PyStmt where
  | ret (e : PyExpr)
  | raiseExc (msg : String)
  | assignGlobal (name : String) (e : PyExpr)
deriving DecidableEq, Repr

/-- The module-level global store (e.g. the `flask_app` binding). -/
abbrev Globals := List (String × Value)

/-- Evaluate an expression against the global store; reading an unbound
global raises `NameError`. -/
def evalExpr : PyExpr → Globals → Except String Value
  | PyExpr.strLit s, _ => Except.ok (Value.str s)
  | PyExpr.readGlobal n, g =>
    match g.lookup n with
    | some v => Except.ok v
    | none => Except.error ("NameError: " ++ n)

/-- Execute a statement list: the resulting global store together with the
returned value (`none` when the body falls off the end, i.e. Python's
implicit `return None`), or the raised exception. -/
def execStmts : List PyStmt → Globals → Except String (Globals × Option Value)
  | [], g => Except.ok (g, none)
  | PyStmt.ret e :: _, g =>
    (evalExpr e g).map (fun v => (g, some v))
  | PyStmt.raiseExc m :: _, _ => Except.error m
  | PyStmt.assignGlobal n e :: rest, g =>
    match evalExpr e g with
    | Except.ok v => execStmts rest ((n, v) :: g)
    | Except.error m => Except.error m

/-- The body of `home_route` in `src/Backend/source/main/app.py` lines 8-9:
a single `return "Hello World !"`. -/
def home_route_body : List PyStmt :=
  [PyStmt.ret (PyExpr.strLit "Hello World !")]

/-- Invoking the view function `home_route`: it takes no parameters, so its
only input is the ambient global store. -/
def home_route (g : Globals) : Except String (Globals × Option Value) :=
  execStmts home_route_body g

/-- Invoke `home_route` N times in sequence, threading the global store and
collecting the outcome of every invocation. -/
def home_route_iter : Nat → Globals → Globals × List (Except String (Option Value))
  | 0, g => (g, [])
  | Nat.succ n, g =>
    match home_route g with
    | Except.ok (g1, v) =>
      let rest := home_route_iter n g1
      (rest.1, Except.ok v :: rest.2)
    | Except.error m => (g, [Except.error m])

/-- A registered URL rule, as Flask/Werkzeug keeps it: path, allowed
methods, and whether Flask answers OPTIONS automatically. -/
structure Rule where
  path : String
  methods : List Method
  automatic_options : Bool
deriving DecidableEq, Repr

/-- The rule registered by `@flask_app.route("/")` (line 7): no `methods`
argument, so Flask defaults to GET, Werkzeug adds HEAD because GET is
present, and the automatic OPTIONS responder is enabled (adding OPTIONS to
the allowed methods). -/
def rootRule : Rule :=
  { path := "/"
    methods := [Method.GET, Method.HEAD, Method.OPTIONS]
    automatic_options := true }

/-- Outcome of routing one request through the application. -/
inductive DispatchOutcome where
  | handlerResponse (r : Response)
  | automaticOptions
  | methodNotAllowed
  | notFound
  | internalError (msg : String)
deriving DecidableEq, Repr

/-- Flask turns a view function's `str` return value into a 200 response
with that string as body; a view returning `None` is a `TypeError`. -/
def flaskMakeResponse : Option Value → DispatchOutcome
  | some (Value.str s) => DispatchOutcome.handlerResponse { status := 200, body := s }
  | some Value.pyNone => DispatchOutcome.internalError "TypeError: view returned None"
  | none => DispatchOutcome.internalError "TypeError: view returned None"

/-- Dispatch a request against the application's single rule, following
Flask: match path, then method; an OPTIONS request on a rule with the
automatic responder is answered by the framework without invoking the view;
otherwise the view is invoked and its return converted to a response. -/
def dispatch (g : Globals) (req : Request) : DispatchOutcome :=
  if req.path = rootRule.path then
    if req.method ∈ rootRule.methods then
      if rootRule.automatic_options && (req.method == Method.OPTIONS) then
        DispatchOutcome.automaticOptions
      else
        match home_route g with
        | Except.ok (_, v) => flaskMakeResponse v
        | Except.error m => DispatchOutcome.internalError m
    else DispatchOutcome.methodNotAllowed
  else DispatchOutcome.notFound

/-- Whether a request is dispatched to the view function `home_route`
(rather than 404, 405, or the framework's automatic OPTIONS answer). -/
def handlerInvoked (req : Request) : Bool :=
  (req.path == rootRule.path) &&
    (rootRule.methods.contains req.method) &&
    !(rootRule.automatic_options && (req.method == Method.OPTIONS))

/-- A plain `GET /` request. -/
def getRootReq : Request :=
  { method := Method.GET, path := "/", query := [], headers := [], body := "" }

/-- A `HEAD /` request. -/
def headRootReq : Request :=
  { method := Method.HEAD, path := "/", query := [], headers := [], body := "" }

/-- An `OPTIONS /` request. -/
def optionsRootReq : Request :=
  { method := Method.OPTIONS, path := "/", query := [], headers := [], body := "" }

/-- The process environment a program could consume: environment variables,
an optional configuration file, and CLI flags. -/
structure ProcessEnv where
  envVars : List (String × String)
  configFile : Option String
  cliFlags : List String
deriving DecidableEq, Repr

/-- Observable world state outside the process (journal of externally
visible effects), used to state that construction has no side effect. -/
structure World where
  effects : List String
deriving DecidableEq, Repr

/-- The constructed application object: import name and registered rules. -/
structure FlaskApp where
  import_name : String
  url_rules : List Rule
deriving DecidableEq, Repr

/-- The default application object the factory returns. -/
def defaultFlaskApp : FlaskApp :=
  { import_name := "source.main.config", url_rules := [] }

/-- Modelled from the spec: the App Factory `create_app` is defined in
`source/main/config.py`, which is absent from the sources (only its import
and call site in `src/Backend/source/main/app.py` lines 2 and 4 are
present). Per the spec's factory contract it takes no caller-supplied
inputs, reads nothing from the environment, acquires no external resources,
has no observable side effect, cannot fail, and returns a default
application object. The ambient environment and world are passed explicitly
so that those contract clauses are statable. -/
def create_app (env : ProcessEnv) (w : World) : World × Except String FlaskApp :=
  (w, Except.ok defaultFlaskApp)

/-- Invoke `create_app` N times in sequence, threading the world and
collecting every result. -/
def create_app_iter : Nat → ProcessEnv → World → World × List (Except String FlaskApp)
  | 0, _, w => (w, [])
  | Nat.succ n, env, w =>
    let first := create_app env w
    let rest := create_app_iter n env first.1
    (rest.1, first.2 :: rest.2)

/-- The top-level operations `src/Backend/source/main/app.py` performs when
the module is loaded (process startup). -/
inductive ModuleOp where
  | importFlask
  | importCreateApp
  | callCreateApp
  | registerRoute (path : String)
deriving DecidableEq, Repr

/-- The module-load sequence of `app.py`: the two imports (lines 1-2), the
single factory call `flask_app = create_app()` (line 4), and the route
registration `@flask_app.route("/")` (line 7). -/
def appModuleInit : List ModuleOp :=
  [ModuleOp.importFlask, ModuleOp.importCreateApp,
   ModuleOp.callCreateApp, ModuleOp.registerRoute "/"]

/- ------------------------------------------------------------------ -/
/- Helper lemmas shared between claims.                               -/
/- ------------------------------------------------------------------ -/

/-- Executing the handler body never raises, returns the literal string,
and leaves the global store untouched. -/
theorem home_route_run (g : Globals) :
    home_route g = Except.ok (g, some (Value.str "Hello World !")) := rfl

/-- Any request the routing layer sends to the view function yields the
fixed 200 / `Hello World !` response. -/
theorem dispatch_of_handlerInvoked (g : Globals) (req : Request)
    (h : handlerInvoked req = true) :
    dispatch g req =
      DispatchOutcome.handlerResponse { status := 200, body := "Hello World !" } := by
  rcases req with ⟨m, p, q, hd, b⟩
  cases m <;>
    simp_all [handlerInvoked, dispatch, rootRule, home_route, home_route_body,
      execStmts, evalExpr, Except.map, flaskMakeResponse]

/- ------------------------------------------------------------------ -/
/- Claim theorems.                                                    -/
/- ------------------------------------------------------------------ -/

/-- C1: every GET request to path `/` is dispatched to the Root Handler and
the response body is exactly the literal string `Hello World !`, with
nothing appended or prepended. -/
theorem c1_root_get_body (g : Globals) (req : Request)
    (hm : req.method = Method.GET) (hp : req.path = "/") :
    dispatch g req =
      DispatchOutcome.handlerResponse { status := 200, body := "Hello World !" } := by
  apply dispatch_of_handlerInvoked
  rcases req with ⟨m, p, q, hd, b⟩
  simp_all [handlerInvoked, rootRule]

/-- Witness for C1 at the concrete request `GET /`. -/
theorem c1_root_get_body_witness :
    dispatch [] getRootReq =
      DispatchOutcome.handlerResponse { status := 200, body := "Hello World !" } :=
  c1_root_get_body [] getRootReq rfl rfl

/-- C2: every GET request to path `/` dispatched to the Root Handler gets a
response with status exactly 200. -/
theorem c2_root_get_status (g : Globals) (req : Request)
    (hm : req.method = Method.GET) (hp : req.path = "/") :
    ∃ r : Response, dispatch g req = DispatchOutcome.handlerResponse r ∧ r.status = 200 := by
  refine ⟨{ status := 200, body := "Hello World !" }, ?_, rfl⟩
  apply dispatch_of_handlerInvoked
  rcases req with ⟨m, p, q, hd, b⟩
  simp_all [handlerInvoked, rootRule]

/-- Witness for C2 at the concrete request `GET /` (with a query string, to
differ from the C1 witness input). -/
theorem c2_root_get_status_witness :
    ∃ r : Response,
      dispatch [("flask_app", Value.pyNone)] getRootReq = DispatchOutcome.handlerResponse r ∧
        r.status = 200 :=
  c2_root_get_status [("flask_app", Value.pyNone)] getRootReq rfl rfl

/-- C3: invoking the Root Handler N times with identical input produces the
identical output every time, and the global store is unchanged after every
invocation (no hidden state accumulation). -/
theorem c3_idempotent (n : Nat) (g : Globals) :
    home_route_iter n g =
      (g, List.replicate n (Except.ok (some (Value.str "Hello World !")))) := by
  induction n with
  | zero => rfl
  | succ k ih =>
    simp [home_route_iter, home_route_run, ih, List.replicate]

/-- C4: the Root Handler cannot fail: for every global store it raises no
exception, returns the fixed string, and mutates no global state. -/
theorem c4_no_failure_no_effect (g : Globals) :
    home_route g = Except.ok (g, some (Value.str "Hello World !")) ∧
      ∀ m : String, home_route g ≠ Except.error m := by
  exact ⟨home_route_run g, fun m h => by simp [home_route_run] at h⟩

/-- C5 counterexample: the claim's "if and only if its method is GET" fails
at the concrete request `HEAD /`, which IS dispatched to the Root Handler
although its method is not GET. -/
theorem c5_counterexample :
    ¬ (handlerInvoked headRootReq = true ↔
        (headRootReq.method = Method.GET ∧ headRootReq.path = "/")) := by
  decide

/-- C5 (amended): a request is dispatched to the Root Handler if and only
if its path is exactly `/` and its method is GET or HEAD; OPTIONS requests
to `/` are answered automatically by the framework without invoking the
handler, and in particular the handler is never invoked for `POST /` or
`GET /missing`. -/
theorem c5_dispatch_condition (g : Globals) (req : Request) :
    (handlerInvoked req = true ↔
      (req.path = "/" ∧ (req.method = Method.GET ∨ req.method = Method.HEAD))) ∧
    dispatch g optionsRootReq = DispatchOutcome.automaticOptions ∧
    handlerInvoked { getRootReq with method := Method.POST } = false ∧
    handlerInvoked { getRootReq with path := "/missing" } = false := by
  refine ⟨?_, rfl, rfl, rfl⟩
  rcases req with ⟨m, p, q, hd, b⟩
  cases m <;> simp [handlerInvoked, rootRule]

/-- C6: the App Factory's construction has no observable side effect other
than returning the object, and the module-load sequence of `app.py` calls
it exactly once, before the route registration (at startup). -/
theorem c6_factory_once_no_effect :
    (∀ (env : ProcessEnv) (w : World), (create_app env w).1 = w) ∧
    appModuleInit.count ModuleOp.callCreateApp = 1 ∧
    appModuleInit.indexOf ModuleOp.callCreateApp <
      appModuleInit.indexOf (ModuleOp.registerRoute "/") := by
  exact ⟨fun env w => rfl, by decide, by decide⟩

/-- C7: invoked with no arguments, the App Factory returns a non-null
application object on every one of N repeated invocations, raising no
error, and leaves the world unchanged. -/
theorem c7_factory_total (n : Nat) (env : ProcessEnv) (w : World) :
    (create_app_iter n env w).2 = List.replicate n (Except.ok defaultFlaskApp) ∧
      (create_app_iter n env w).1 = w := by
  induction n generalizing w with
  | zero => exact ⟨rfl, rfl⟩
  | succ k ih =>
    refine ⟨?_, ?_⟩ <;> simp [create_app_iter, create_app, (ih w).1, (ih w).2, List.replicate]

/-- C8: the factory consumes nothing from the environment: the constructed
application (and the world) is identical for any two process environments,
whatever their environment variables, configuration file, or CLI flags. -/
theorem c8_env_noninterference (env1 env2 : ProcessEnv) (w : World) :
    create_app env1 w = create_app env2 w ∧
      (create_app env1 w).2 = Except.ok defaultFlaskApp := by
  exact ⟨rfl, rfl⟩

/-- C9 counterexample: the claim fails for OPTIONS at the concrete request
`OPTIONS /`: the framework answers it automatically and the Root Handler is
not invoked. -/
theorem c9_counterexample :
    handlerInvoked optionsRootReq = false ∧
      dispatch [] optionsRootReq = DispatchOutcome.automaticOptions := by
  decide

/-- C9 (amended): because the route is registered with no explicit method
list, HEAD requests to `/` are also dispatched to the Root Handler, not
only GET; OPTIONS requests to `/` are matched by the rule but answered
automatically by the framework without invoking the handler. -/
theorem c9_head_dispatched (g : Globals) (q hd : List (String × String)) (b : String) :
    handlerInvoked { method := Method.HEAD, path := "/", query := q, headers := hd, body := b } = true ∧
    dispatch g { method := Method.OPTIONS, path := "/", query := q, headers := hd, body := b } =
      DispatchOutcome.automaticOptions := by
  exact ⟨rfl, rfl⟩

/-- C10: the Root Handler takes no parameters and reads nothing from the
request, so any two requests dispatched to it — whatever their headers,
query string, or body — receive identical responses. -/
theorem c10_request_noninterference (g : Globals) (req1 req2 : Request)
    (h1 : handlerInvoked req1 = true) (h2 : handlerInvoked req2 = true) :
    dispatch g req1 = dispatch g req2 := by
  rw [dispatch_of_handlerInvoked g req1 h1, dispatch_of_handlerInvoked g req2 h2]

/-- Witness for C10: a bare `GET /` and a `HEAD /` with headers, query and
body receive the identical response. -/
theorem c10_request_noninterference_witness :
    dispatch [] getRootReq =
      dispatch []
        { method := Method.HEAD, path := "/", query := [("a", "b")],
          headers := [("X-Forwarded-For", "10.0.0.1")], body := "payload" } :=
  c10_request_noninterference [] getRootReq
    { method := Method.HEAD, path := "/", query := [("a", "b")],
      headers := [("X-Forwarded-For", "10.0.0.1")], body := "payload" }
    rfl rfl

end Postalgic
